import Mathlib

/-!
Verification of the management-plane request dispatcher of
`edgelet/edgelet-http-mgmt/src/server/mod.rs`: the versioned route table,
the per-route authorization policy, and the dispatch/error-translation
behaviour. The route table, owner constant and per-route policies are
embedded from the source file; the router recognizer, the `Authorization`
gate and the dispatch loop live in the `edgelet-http` / `edgelet-core`
crates and are modelled from the specification.
-/

namespace Mgmt

/-- HTTP methods understood by the router (`router!` accepts a method
keyword per route; `patch` appears only as an unregistered method). -/
inductive Method
  | get
  | post
  | put
  | delete
  | patch
deriving DecidableEq

/-- Modelled from the spec: `edgelet_http::Version` (not under `src/`), an
ordered enumerable API version; the two values used by the route table. -/
inductive Version
  | Version2018_06_28
  | Version2019_01_30
deriving DecidableEq

/-- Numeric rank of a version, in date order. -/
def Version.rank : Version → Nat
  | .Version2018_06_28 => 0
  | .Version2019_01_30 => 1

/-- Modelled from the spec: version comparison, "request version ≥ the
minimum version at which a route was introduced". -/
def Version.le (a b : Version) : Bool := Nat.ble a.rank b.rank

/-- Modelled from the spec: `edgelet_core::Policy` (not under `src/`):
`Anonymous` or restricted to the named owning module
(`Policy::Module(name)` in the source wiring). -/
inductive Policy
  | Anonymous
  | Module (name : String)
deriving DecidableEq

/-- Handler identifiers, one per route handler named in the source file. -/
inductive Handler
  | ListModules
  | CreateModule
  | GetModule
  | UpdateModule
  | PrepareUpdateModule
  | DeleteModule
  | StartModule
  | StopModule
  | RestartModule
  | ModuleLogs
  | ListIdentities
  | CreateIdentity
  | UpdateIdentity
  | DeleteIdentity
  | GetSystemInfo
deriving DecidableEq

/-- The owner constant of the source file (mod.rs lines 26-28):
`lazy_static! { static ref AGENT_NAME: String = "edgeAgent".to_string(); }` -/
def AGENT_NAME : String := "edgeAgent"

/-- A compiled path-pattern segment: a literal segment or a named capture
(the source patterns use the regex group `(?P<name>[^/]+)`). -/
inductive Seg
  | lit (s : String)
  | capture (name : String)
deriving DecidableEq

/-- Split a character list on `/`, keeping empty pieces (the semantics of
splitting a path on the separator: `"/a"` gives `["", "a"]`). -/
def splitOnSlash : List Char → List (List Char)
  | [] => [[]]
  | c :: rest =>
    let r := splitOnSlash rest
    if c = '/' then [] :: r
    else
      match r with
      | [] => [[c]]
      | g :: gs => (c :: g) :: gs

/-- Split a string on `/`. -/
def splitPath (s : String) : List String :=
  (splitOnSlash s.toList).map fun cs => String.mk cs

/-- Left half of the capture group after the pattern is split on `/`
(the group's character class contains a `/`, so it splits in two). -/
def capLeft : String := "(?P<name>[^"

/-- Right half of the capture group after the pattern is split on `/`. -/
def capRight : String := "]+)"

/-- Modelled from the spec: pattern compilation of the `RegexRecognizer`
(not under `src/`). Reassembles the `(?P<name>[^/]+)` group split by `/`
into a named capture segment; every other piece is a literal segment. -/
def parseSegs : List String → List Seg
  | [] => []
  | a :: b :: rest =>
    if a == capLeft && b == capRight then Seg.capture "name" :: parseSegs rest
    else Seg.lit a :: parseSegs (b :: rest)
  | [a] => [Seg.lit a]

/-- Compile a source path pattern into segments. -/
def compilePattern (pat : String) : List Seg := parseSegs (splitPath pat)

/-- Modelled from the spec: anchored segment-wise matching of a compiled
pattern against path segments; a capture stands for the regex `[^/]+`: a
non-empty run of characters none of which is `/`. Returns the captured
`(group, value)` pairs on success. -/
def matchSegs : List Seg → List String → Option (List (String × String))
  | [], [] => some []
  | Seg.lit l :: ps, s :: ss =>
    if s == l then matchSegs ps ss else none
  | Seg.capture n :: ps, s :: ss =>
    if s == "" || s.toList.contains '/' then none
    else (matchSegs ps ss).map fun caps => (n, s) :: caps
  | _, _ => none

/-- Match a source path pattern against a full request path. -/
def patternMatch (pat path : String) : Option (List (String × String)) :=
  matchSegs (compilePattern pat) (splitPath path)

/-- A route of the table: `{method, min_version, path_pattern, policy,
handler}` (patterns kept verbatim from the source). -/
structure Route where
  method : Method
  minVersion : Version
  pattern : String
  policy : Policy
  handler : Handler
deriving DecidableEq

/-- The route table of `ManagementService::new` (mod.rs lines 45-63), in
source registration order, with each route's method, minimum version,
verbatim path pattern, policy and handler. -/
def managementRoutes : List Route := [
  ⟨.get,    .Version2018_06_28, "/modules",                               .Anonymous,          .ListModules⟩,
  ⟨.post,   .Version2018_06_28, "/modules",                               .Module AGENT_NAME,  .CreateModule⟩,
  ⟨.get,    .Version2018_06_28, "/modules/(?P<name>[^/]+)",               .Anonymous,          .GetModule⟩,
  ⟨.put,    .Version2018_06_28, "/modules/(?P<name>[^/]+)",               .Module AGENT_NAME,  .UpdateModule⟩,
  ⟨.post,   .Version2019_01_30, "/modules/(?P<name>[^/]+)/prepareupdate", .Module AGENT_NAME,  .PrepareUpdateModule⟩,
  ⟨.delete, .Version2018_06_28, "/modules/(?P<name>[^/]+)",               .Module AGENT_NAME,  .DeleteModule⟩,
  ⟨.post,   .Version2018_06_28, "/modules/(?P<name>[^/]+)/start",         .Anonymous,          .StartModule⟩,
  ⟨.post,   .Version2018_06_28, "/modules/(?P<name>[^/]+)/stop",          .Anonymous,          .StopModule⟩,
  ⟨.post,   .Version2018_06_28, "/modules/(?P<name>[^/]+)/restart",       .Anonymous,          .RestartModule⟩,
  ⟨.get,    .Version2018_06_28, "/modules/(?P<name>[^/]+)/logs",          .Anonymous,          .ModuleLogs⟩,
  ⟨.get,    .Version2018_06_28, "/identities",                            .Module AGENT_NAME,  .ListIdentities⟩,
  ⟨.post,   .Version2018_06_28, "/identities",                            .Module AGENT_NAME,  .CreateIdentity⟩,
  ⟨.put,    .Version2018_06_28, "/identities/(?P<name>[^/]+)",            .Module AGENT_NAME,  .UpdateIdentity⟩,
  ⟨.delete, .Version2018_06_28, "/identities/(?P<name>[^/]+)",            .Module AGENT_NAME,  .DeleteIdentity⟩,
  ⟨.get,    .Version2018_06_28, "/systeminfo",                            .Anonymous,          .GetSystemInfo⟩]

/-- An incoming request: method, declared API version, path, and an opaque
body (bodies are consumed only by handlers). -/
structure Request where
  method : Method
  version : Version
  path : String
  body : String
deriving DecidableEq

/-- Outcome of route-table matching (spec §4.1). -/
inductive RouteMatch
  | Matched (r : Route) (captures : List (String × String))
  | MethodMismatch
  | VersionTooOld
  | NoMatch
deriving DecidableEq

/-- Modelled from the spec: find the first route, in registration order,
whose method equals the request method and whose pattern matches the path
(first-registered wins). -/
def findRoute : List Route → Method → String → Option (Route × List (String × String))
  | [], _, _ => none
  | r :: rest, m, path =>
    if r.method = m then
      match patternMatch r.pattern path with
      | some caps => some (r, caps)
      | none => findRoute rest m path
    else findRoute rest m path

/-- Does any route's pattern (any method) match the path? -/
def pathMatchesAny (routes : List Route) (path : String) : Bool :=
  routes.any fun r => (patternMatch r.pattern path).isSome

/-- Modelled from the spec: route-table `match` (§4.1): first
method+pattern match in registration order, then the version check;
`MethodMismatch` when the path matches some route but no route of the
request's method; otherwise `NoMatch`. -/
def matchRoutes (routes : List Route) (m : Method) (v : Version) (path : String) : RouteMatch :=
  match findRoute routes m path with
  | some (r, caps) =>
    if Version.le r.minVersion v then .Matched r caps else .VersionTooOld
  | none =>
    if pathMatchesAny routes path then .MethodMismatch else .NoMatch

/-- Result of resolving the caller identity from the connection via the
Module Runtime: an error, no identity, or a module name. -/
abbrev Resolution := Except Unit (Option String)

/-- Authorization outcome. -/
inductive AuthResult
  | Authorized
  | Denied
deriving DecidableEq

/-- Modelled from the spec: the `Authorization` gate's decision (§4.2,
`edgelet-http`'s `authorization` module, not under `src/`): `Anonymous`
always passes; `Module name` passes iff resolution returned exactly
`some name`; no identity or a runtime error is `Denied` (fail closed). -/
def authorize (p : Policy) (res : Resolution) : AuthResult :=
  match p with
  | .Anonymous => .Authorized
  | .Module name =>
    match res with
    | .ok (some id) => if id = name then .Authorized else .Denied
    | .ok none => .Denied
    | .error _ => .Denied

/-- Number of identity resolutions the gate performs for a policy: one
lookup for a restricted route, none for an anonymous one. -/
def policyResolves : Policy → Nat
  | .Anonymous => 0
  | .Module _ => 1

/-- Structured responses of the dispatcher (spec §4.3/§7): every request
terminates in exactly one of these. -/
inductive Response
  | success (code : Nat)
  | notFound
  | methodNotAllowed
  | denied
  | serverError
deriving DecidableEq

/-- What one dispatch produced: the structured response, the resulting
backing state, which handler (if any) was invoked, and how many identity
resolutions were performed. -/
structure DispatchOut (σ : Type) where
  response : Response
  state : σ
  invoked : Option Handler
  resolveCalls : Nat

/-- Modelled from the spec: the dispatcher (§4.3). `oracle` is the
sequence of answers successive identity resolutions would return (the
head is the first and only lookup; listing it makes "not retried"
provable). `handlers` runs a handler on captures, body and backing state,
returning the new state and either a response code or a handler error. -/
def dispatch {σ : Type} (routes : List Route) (oracle : List Resolution)
    (handlers : Handler → List (String × String) → String → σ → σ × Except Unit Nat)
    (req : Request) (s : σ) : DispatchOut σ :=
  match matchRoutes routes req.method req.version req.path with
  | .NoMatch => ⟨.notFound, s, none, 0⟩
  | .VersionTooOld => ⟨.notFound, s, none, 0⟩
  | .MethodMismatch => ⟨.methodNotAllowed, s, none, 0⟩
  | .Matched r caps =>
    match authorize r.policy (oracle.headD (Except.error ())) with
    | .Denied => ⟨.denied, s, none, policyResolves r.policy⟩
    | .Authorized =>
      match handlers r.handler caps req.body s with
      | (s1, .ok code) => ⟨.success code, s1, some r.handler, policyResolves r.policy⟩
      | (s1, .error _) => ⟨.serverError, s1, some r.handler, policyResolves r.policy⟩

/-- Render a compiled segment back in the spec's path notation
(a capture prints as a braced name). -/
def renderSeg : Seg → String
  | .lit s => s
  | .capture n => "\x7b" ++ n ++ "\x7d"

/-- The spec-notation path of a source pattern. -/
def specPath (pat : String) : String :=
  String.intercalate "/" ((compilePattern pat).map renderSeg)

/-- Modelled from the spec: the §6 route table rows, written from the
spec's words (method, path in `\x7bname\x7d` notation, minimum version,
policy with `agent` as owner), in the table's row order. -/
def specTableRows (agent : String) : List (Method × String × Version × Policy) := [
  (.get,    "/modules",                            .Version2018_06_28, .Anonymous),
  (.post,   "/modules",                            .Version2018_06_28, .Module agent),
  (.get,    "/modules/\x7bname\x7d",               .Version2018_06_28, .Anonymous),
  (.put,    "/modules/\x7bname\x7d",               .Version2018_06_28, .Module agent),
  (.post,   "/modules/\x7bname\x7d/prepareupdate", .Version2019_01_30, .Module agent),
  (.delete, "/modules/\x7bname\x7d",               .Version2018_06_28, .Module agent),
  (.post,   "/modules/\x7bname\x7d/start",         .Version2018_06_28, .Anonymous),
  (.post,   "/modules/\x7bname\x7d/stop",          .Version2018_06_28, .Anonymous),
  (.post,   "/modules/\x7bname\x7d/restart",       .Version2018_06_28, .Anonymous),
  (.get,    "/modules/\x7bname\x7d/logs",          .Version2018_06_28, .Anonymous),
  (.get,    "/identities",                         .Version2018_06_28, .Module agent),
  (.post,   "/identities",                         .Version2018_06_28, .Module agent),
  (.put,    "/identities/\x7bname\x7d",            .Version2018_06_28, .Module agent),
  (.delete, "/identities/\x7bname\x7d",            .Version2018_06_28, .Module agent),
  (.get,    "/systeminfo",                         .Version2018_06_28, .Anonymous)]

/-- Trivial handler environment over `Nat` state: every handler leaves the
state unchanged and answers 200. -/
def trivialHandlers : Handler → List (String × String) → String → Nat → Nat × Except Unit Nat :=
  fun _ _ _ s => (s, Except.ok 200)

/-- Handler environment over `Nat` state in which every handler fails. -/
def failingHandlers : Handler → List (String × String) → String → Nat → Nat × Except Unit Nat :=
  fun _ _ _ s => (s, Except.error ())

/-- Every capture accepted by the segment matcher is a non-empty segment
containing no `/`. -/
theorem matchSegs_caps (ps : List Seg) (ss : List String)
    (caps : List (String × String)) (h : matchSegs ps ss = some caps) :
    ∀ p ∈ caps, p.2 ≠ "" ∧ p.2.toList.contains '/' = false := by
  induction ps generalizing ss caps with
  | nil =>
    cases ss with
    | nil =>
      simp only [matchSegs, Option.some.injEq] at h
      subst h
      intro p hp
      cases hp
    | cons s ss => simp [matchSegs] at h
  | cons seg ps ih =>
    cases ss with
    | nil => cases seg <;> simp [matchSegs] at h
    | cons s ss =>
      cases seg with
      | lit l =>
        simp only [matchSegs] at h
        split at h
        · exact ih ss caps h
        · simp at h
      | capture n =>
        simp only [matchSegs] at h
        split at h
        · simp at h
        · rename_i hcond
          rcases Option.map_eq_some'.mp h with ⟨caps0, h0, hcons⟩
          subst hcons
          intro p hp
          rcases List.mem_cons.mp hp with hhd | htl
          · subst hhd
            simp only [Bool.or_eq_true, beq_iff_eq] at hcond
            push_neg at hcond
            exact ⟨hcond.1, by simpa using hcond.2⟩
          · exact ih ss caps0 h0 p htl

/-- Dispatch on a request with no matching pattern: 404, untouched state,
no handler, no identity lookup. -/
theorem dispatch_eq_of_noMatch {σ : Type} (routes : List Route)
    (oracle : List Resolution)
    (handlers : Handler → List (String × String) → String → σ → σ × Except Unit Nat)
    (req : Request) (s : σ)
    (hm : matchRoutes routes req.method req.version req.path = .NoMatch) :
    dispatch routes oracle handlers req s = ⟨.notFound, s, none, 0⟩ := by
  unfold dispatch
  rw [hm]

/-- Dispatch on a request older than the route's minimum version: 404,
untouched state, no handler, no identity lookup. -/
theorem dispatch_eq_of_versionTooOld {σ : Type} (routes : List Route)
    (oracle : List Resolution)
    (handlers : Handler → List (String × String) → String → σ → σ × Except Unit Nat)
    (req : Request) (s : σ)
    (hm : matchRoutes routes req.method req.version req.path = .VersionTooOld) :
    dispatch routes oracle handlers req s = ⟨.notFound, s, none, 0⟩ := by
  unfold dispatch
  rw [hm]

/-- Dispatch on a path matched under a different method: 405, untouched
state, no handler, no identity lookup. -/
theorem dispatch_eq_of_methodMismatch {σ : Type} (routes : List Route)
    (oracle : List Resolution)
    (handlers : Handler → List (String × String) → String → σ → σ × Except Unit Nat)
    (req : Request) (s : σ)
    (hm : matchRoutes routes req.method req.version req.path = .MethodMismatch) :
    dispatch routes oracle handlers req s = ⟨.methodNotAllowed, s, none, 0⟩ := by
  unfold dispatch
  rw [hm]

/-- Dispatch on a matched route reduces to the authorization gate followed
by the handler. -/
theorem dispatch_eq_of_matched {σ : Type} (routes : List Route)
    (oracle : List Resolution)
    (handlers : Handler → List (String × String) → String → σ → σ × Except Unit Nat)
    (req : Request) (s : σ) (r : Route) (caps : List (String × String))
    (hm : matchRoutes routes req.method req.version req.path = .Matched r caps) :
    dispatch routes oracle handlers req s =
      match authorize r.policy (oracle.headD (Except.error ())) with
      | .Denied => ⟨.denied, s, none, policyResolves r.policy⟩
      | .Authorized =>
        match handlers r.handler caps req.body s with
        | (s1, .ok code) => ⟨.success code, s1, some r.handler, policyResolves r.policy⟩
        | (s1, .error _) => ⟨.serverError, s1, some r.handler, policyResolves r.policy⟩ := by
  unfold dispatch
  rw [hm]

/-- The gate performs at most one identity resolution per request. -/
theorem dispatch_resolveCalls_le_one {σ : Type} (routes : List Route)
    (oracle : List Resolution)
    (handlers : Handler → List (String × String) → String → σ → σ × Except Unit Nat)
    (req : Request) (s : σ) :
    (dispatch routes oracle handlers req s).resolveCalls ≤ 1 := by
  have hpol : ∀ p : Policy, policyResolves p ≤ 1 := by
    intro p
    cases p <;> simp [policyResolves]
  cases hm : matchRoutes routes req.method req.version req.path with
  | NoMatch =>
    rw [dispatch_eq_of_noMatch routes oracle handlers req s hm]
    exact Nat.zero_le 1
  | VersionTooOld =>
    rw [dispatch_eq_of_versionTooOld routes oracle handlers req s hm]
    exact Nat.zero_le 1
  | MethodMismatch =>
    rw [dispatch_eq_of_methodMismatch routes oracle handlers req s hm]
    exact Nat.zero_le 1
  | Matched r caps =>
    rw [dispatch_eq_of_matched routes oracle handlers req s r caps hm]
    cases authorize r.policy (oracle.headD (Except.error ())) with
    | Denied => exact hpol r.policy
    | Authorized =>
      rcases handlers r.handler caps req.body s with ⟨s1, res⟩
      cases res with
      | ok code => exact hpol r.policy
      | error e => exact hpol r.policy

/-- C1: for every route restricted to an owner, authorization succeeds
iff the resolved identity is exactly the owner; no identity, or a
different identity, is denied (fail closed, never fail open). -/
theorem restricted_routes_authorize_iff_owner (r : Route)
    (_hr : r ∈ managementRoutes) (agent : String)
    (hp : r.policy = Policy.Module agent) (res : Resolution) :
    (authorize r.policy res = .Authorized ↔ res = Except.ok (some agent)) ∧
    (res = Except.ok none → authorize r.policy res = .Denied) ∧
    (∀ id, id ≠ agent → res = Except.ok (some id) → authorize r.policy res = .Denied) := by
  rw [hp]
  refine ⟨?_, ?_, ?_⟩
  · cases res with
    | error e => simp [authorize]
    | ok o =>
      cases o with
      | none => simp [authorize]
      | some id =>
        by_cases h : id = agent <;> simp [authorize, h]
  · intro h
    subst h
    rfl
  · intro id hne h
    subst h
    simp [authorize, hne]

/-- C1 witness at the `POST /modules` route: the agent identity is
authorized, an absent identity and a foreign identity are denied. -/
theorem restricted_routes_authorize_iff_owner_witness :
    authorize (Policy.Module AGENT_NAME) (Except.ok (some "edgeAgent")) = .Authorized ∧
    authorize (Policy.Module AGENT_NAME) (Except.ok none) = .Denied ∧
    authorize (Policy.Module AGENT_NAME) (Except.ok (some "camera-module")) = .Denied := by
  refine ⟨?_, ?_, ?_⟩
  · exact (restricted_routes_authorize_iff_owner
      ⟨.post, .Version2018_06_28, "/modules", .Module AGENT_NAME, .CreateModule⟩
      (by decide) AGENT_NAME rfl (Except.ok (some "edgeAgent"))).1.mpr rfl
  · exact (restricted_routes_authorize_iff_owner
      ⟨.post, .Version2018_06_28, "/modules", .Module AGENT_NAME, .CreateModule⟩
      (by decide) AGENT_NAME rfl (Except.ok none)).2.1 rfl
  · exact (restricted_routes_authorize_iff_owner
      ⟨.post, .Version2018_06_28, "/modules", .Module AGENT_NAME, .CreateModule⟩
      (by decide) AGENT_NAME rfl (Except.ok (some "camera-module"))).2.2
      "camera-module" (by decide) rfl

/-- C5: for every anonymous route, authorization succeeds for every
resolution outcome, including no identity and runtime errors. -/
theorem anonymous_routes_always_authorized (r : Route)
    (_hr : r ∈ managementRoutes) (hp : r.policy = Policy.Anonymous)
    (res : Resolution) : authorize r.policy res = .Authorized := by
  rw [hp]
  rfl

/-- C5 witness at the `GET /modules` route with an unresolvable identity. -/
theorem anonymous_routes_always_authorized_witness :
    authorize Policy.Anonymous (Except.ok none) = .Authorized :=
  anonymous_routes_always_authorized
    ⟨.get, .Version2018_06_28, "/modules", .Anonymous, .ListModules⟩
    (by decide) rfl (Except.ok none)

/-- C9: `AGENT_NAME` is the single constant owner `"edgeAgent"`, and every
restricted route of the table names exactly that owner. -/
theorem restricted_routes_single_owner :
    AGENT_NAME = "edgeAgent" ∧
    managementRoutes.all (fun r =>
      match r.policy with
      | .Module n => n == AGENT_NAME
      | .Anonymous => true) = true := by
  constructor
  · rfl
  · decide

/-- C10: in every route of the table, a successful pattern match captures
only non-empty values free of `/` (the `(?P<name>[^/]+)` capture spans
exactly one non-empty path segment). -/
theorem captured_name_single_segment (r : Route) (_hr : r ∈ managementRoutes)
    (path : String) (caps : List (String × String))
    (hm : patternMatch r.pattern path = some caps) :
    ∀ p ∈ caps, p.2 ≠ "" ∧ p.2.toList.contains '/' = false :=
  matchSegs_caps (compilePattern r.pattern) (splitPath path) caps hm

/-- C10 witness: `GET /modules/{name}` matched on `/modules/foo` captures
`foo`, which is non-empty and slash-free; the empty name position does
not match. -/
theorem captured_name_single_segment_witness :
    patternMatch "/modules/(?P<name>[^/]+)" "/modules/" = none ∧
    (("name", "foo") : String × String).2 ≠ "" ∧
    (("name", "foo") : String × String).2.toList.contains '/' = false := by
  refine ⟨by decide, ?_⟩
  exact captured_name_single_segment
    ⟨.get, .Version2018_06_28, "/modules/(?P<name>[^/]+)", .Anonymous, .GetModule⟩
    (by decide) "/modules/foo" [("name", "foo")] (by decide)
    ("name", "foo") (by decide)

/-- C2: on a matched restricted route, a Module Runtime error during
identity resolution yields `denied` (never a server error), exactly one
resolution is attempted, and no request ever resolves more than once. -/
theorem resolution_error_is_denied {σ : Type} (rest : List Resolution)
    (handlers : Handler → List (String × String) → String → σ → σ × Except Unit Nat)
    (req : Request) (s : σ) (r : Route) (caps : List (String × String))
    (hm : matchRoutes managementRoutes req.method req.version req.path = .Matched r caps)
    (name : String) (hp : r.policy = Policy.Module name) :
    (dispatch managementRoutes (Except.error () :: rest) handlers req s).response = .denied ∧
    (dispatch managementRoutes (Except.error () :: rest) handlers req s).response ≠ .serverError ∧
    (dispatch managementRoutes (Except.error () :: rest) handlers req s).resolveCalls = 1 ∧
    ∀ oracle : List Resolution,
      (dispatch managementRoutes oracle handlers req s).resolveCalls ≤ 1 := by
  have hden := dispatch_eq_of_matched managementRoutes (Except.error () :: rest)
    handlers req s r caps hm
  rw [hp] at hden
  simp only [List.headD_cons, authorize, policyResolves] at hden
  rw [hden]
  exact ⟨rfl, by simp, rfl, fun oracle =>
    dispatch_resolveCalls_le_one managementRoutes oracle handlers req s⟩

/-- C2 witness: `POST /modules` with a failing identity resolution is
denied after a single lookup. -/
theorem resolution_error_is_denied_witness :
    (dispatch managementRoutes [Except.error ()] trivialHandlers
      ⟨.post, .Version2018_06_28, "/modules", ""⟩ 0).response = .denied ∧
    (dispatch managementRoutes [Except.error ()] trivialHandlers
      ⟨.post, .Version2018_06_28, "/modules", ""⟩ 0).resolveCalls = 1 := by
  refine ⟨?_, ?_⟩
  · exact (resolution_error_is_denied [] trivialHandlers
      ⟨.post, .Version2018_06_28, "/modules", ""⟩ 0
      ⟨.post, .Version2018_06_28, "/modules", .Module AGENT_NAME, .CreateModule⟩ []
      (by decide) AGENT_NAME rfl).1
  · exact (resolution_error_is_denied [] trivialHandlers
      ⟨.post, .Version2018_06_28, "/modules", ""⟩ 0
      ⟨.post, .Version2018_06_28, "/modules", .Module AGENT_NAME, .CreateModule⟩ []
      (by decide) AGENT_NAME rfl).2.2.1

/-- C3: a denied request leaves the backing state untouched and invokes no
handler; conversely a handler only ever runs after the gate authorized
the matched route (authorization strictly precedes the handler). -/
theorem denial_never_invokes_handler {σ : Type} (oracle : List Resolution)
    (handlers : Handler → List (String × String) → String → σ → σ × Except Unit Nat)
    (req : Request) (s : σ) :
    ((dispatch managementRoutes oracle handlers req s).response = .denied →
      (dispatch managementRoutes oracle handlers req s).state = s ∧
      (dispatch managementRoutes oracle handlers req s).invoked = none) ∧
    (∀ h : Handler, (dispatch managementRoutes oracle handlers req s).invoked = some h →
      ∃ r caps, matchRoutes managementRoutes req.method req.version req.path = .Matched r caps ∧
        r.handler = h ∧
        authorize r.policy (oracle.headD (Except.error ())) = .Authorized) := by
  cases hm : matchRoutes managementRoutes req.method req.version req.path with
  | NoMatch =>
    rw [dispatch_eq_of_noMatch managementRoutes oracle handlers req s hm]
    exact ⟨fun hc => by simp at hc, fun h hc => by simp at hc⟩
  | VersionTooOld =>
    rw [dispatch_eq_of_versionTooOld managementRoutes oracle handlers req s hm]
    exact ⟨fun hc => by simp at hc, fun h hc => by simp at hc⟩
  | MethodMismatch =>
    rw [dispatch_eq_of_methodMismatch managementRoutes oracle handlers req s hm]
    exact ⟨fun hc => by simp at hc, fun h hc => by simp at hc⟩
  | Matched r caps =>
    rw [dispatch_eq_of_matched managementRoutes oracle handlers req s r caps hm]
    cases hA : authorize r.policy (oracle.headD (Except.error ())) with
    | Denied => exact ⟨fun _ => ⟨rfl, rfl⟩, fun h hc => by simp at hc⟩
    | Authorized =>
      rcases handlers r.handler caps req.body s with ⟨s1, res⟩
      cases res with
      | ok code =>
        refine ⟨fun hc => by simp at hc, fun h hc => ?_⟩
        have hh : r.handler = h := by simpa using hc
        exact ⟨r, caps, rfl, hh, hA⟩
      | error e =>
        refine ⟨fun hc => by simp at hc, fun h hc => ?_⟩
        have hh : r.handler = h := by simpa using hc
        exact ⟨r, caps, rfl, hh, hA⟩

/-- C3 witness: `POST /modules` from `camera-module` is denied with
untouched state and no handler invocation. -/
theorem denial_never_invokes_handler_witness :
    (dispatch managementRoutes [Except.ok (some "camera-module")] trivialHandlers
      ⟨.post, .Version2018_06_28, "/modules", ""⟩ 0).state = 0 ∧
    (dispatch managementRoutes [Except.ok (some "camera-module")] trivialHandlers
      ⟨.post, .Version2018_06_28, "/modules", ""⟩ 0).invoked = none :=
  (denial_never_invokes_handler [Except.ok (some "camera-module")] trivialHandlers
    ⟨.post, .Version2018_06_28, "/modules", ""⟩ 0).1 (by decide)

/-- C4: the registered table is exactly the fifteen §6 rows — same order,
methods, spec-notation paths, minimum versions and policies, with
`AGENT_NAME` as the restricted owner. -/
theorem management_route_table_matches_spec :
    managementRoutes.map (fun r => (r.method, specPath r.pattern, r.minVersion, r.policy)) =
      specTableRows AGENT_NAME ∧
    managementRoutes.length = 15 := by
  exact ⟨by decide, by decide⟩

/-- C6: when a route is the first method+pattern match for a request, the
request matches iff its version is at least the route's minimum;
below the minimum the outcome is `VersionTooOld`, dispatched as 404 with
no handler run, regardless of the identity oracle. -/
theorem version_gating {σ : Type} (oracle : List Resolution)
    (handlers : Handler → List (String × String) → String → σ → σ × Except Unit Nat)
    (req : Request) (s : σ) (r : Route) (caps : List (String × String))
    (hf : findRoute managementRoutes req.method req.path = some (r, caps)) :
    (Version.le r.minVersion req.version = true →
      matchRoutes managementRoutes req.method req.version req.path = .Matched r caps) ∧
    (Version.le r.minVersion req.version = false →
      matchRoutes managementRoutes req.method req.version req.path = .VersionTooOld ∧
      (dispatch managementRoutes oracle handlers req s).response = .notFound ∧
      (dispatch managementRoutes oracle handlers req s).invoked = none) := by
  have hmr : matchRoutes managementRoutes req.method req.version req.path =
      if Version.le r.minVersion req.version then .Matched r caps else .VersionTooOld := by
    unfold matchRoutes
    rw [hf]
  refine ⟨fun h => ?_, fun h => ?_⟩
  · rw [hmr, h]
    rfl
  · have hvto : matchRoutes managementRoutes req.method req.version req.path =
        .VersionTooOld := by
      rw [hmr, h]
      rfl
    rw [dispatch_eq_of_versionTooOld managementRoutes oracle handlers req s hvto]
    exact ⟨hvto, rfl, rfl⟩

/-- C6 witness: `POST /modules/foo/prepareupdate` at 2018-06-28 is
`VersionTooOld` and dispatched as 404, while the same request at
2019-01-30 matches the route. -/
theorem version_gating_witness :
    matchRoutes managementRoutes .post .Version2018_06_28 "/modules/foo/prepareupdate" =
      .VersionTooOld ∧
    (dispatch managementRoutes [] trivialHandlers
      ⟨.post, .Version2018_06_28, "/modules/foo/prepareupdate", ""⟩ 0).response = .notFound ∧
    matchRoutes managementRoutes .post .Version2019_01_30 "/modules/foo/prepareupdate" =
      .Matched ⟨.post, .Version2019_01_30, "/modules/(?P<name>[^/]+)/prepareupdate",
        .Module AGENT_NAME, .PrepareUpdateModule⟩ [("name", "foo")] := by
  refine ⟨?_, ?_, ?_⟩
  · exact ((version_gating [] trivialHandlers
      ⟨.post, .Version2018_06_28, "/modules/foo/prepareupdate", ""⟩ 0
      ⟨.post, .Version2019_01_30, "/modules/(?P<name>[^/]+)/prepareupdate",
        .Module AGENT_NAME, .PrepareUpdateModule⟩ [("name", "foo")] (by decide)).2 rfl).1
  · exact ((version_gating [] trivialHandlers
      ⟨.post, .Version2018_06_28, "/modules/foo/prepareupdate", ""⟩ 0
      ⟨.post, .Version2019_01_30, "/modules/(?P<name>[^/]+)/prepareupdate",
        .Module AGENT_NAME, .PrepareUpdateModule⟩ [("name", "foo")] (by decide)).2 rfl).2.1
  · exact (version_gating [] trivialHandlers
      ⟨.post, .Version2019_01_30, "/modules/foo/prepareupdate", ""⟩ 0
      ⟨.post, .Version2019_01_30, "/modules/(?P<name>[^/]+)/prepareupdate",
        .Module AGENT_NAME, .PrepareUpdateModule⟩ [("name", "foo")] (by decide)).1 rfl

/-- C7: every failure is translated into a structured response at the
dispatcher: `NoMatch` and `VersionTooOld` to 404, `MethodMismatch` to
405, a gate denial to 403, and a handler error to a structured 5xx. -/
theorem dispatch_translates_all_failures {σ : Type} (oracle : List Resolution)
    (handlers : Handler → List (String × String) → String → σ → σ × Except Unit Nat)
    (req : Request) (s : σ) :
    (matchRoutes managementRoutes req.method req.version req.path = .NoMatch →
      (dispatch managementRoutes oracle handlers req s).response = .notFound) ∧
    (matchRoutes managementRoutes req.method req.version req.path = .VersionTooOld →
      (dispatch managementRoutes oracle handlers req s).response = .notFound) ∧
    (matchRoutes managementRoutes req.method req.version req.path = .MethodMismatch →
      (dispatch managementRoutes oracle handlers req s).response = .methodNotAllowed) ∧
    (∀ r caps, matchRoutes managementRoutes req.method req.version req.path = .Matched r caps →
      authorize r.policy (oracle.headD (Except.error ())) = .Denied →
      (dispatch managementRoutes oracle handlers req s).response = .denied) ∧
    (∀ r caps s1 e,
      matchRoutes managementRoutes req.method req.version req.path = .Matched r caps →
      authorize r.policy (oracle.headD (Except.error ())) = .Authorized →
      handlers r.handler caps req.body s = (s1, Except.error e) →
      (dispatch managementRoutes oracle handlers req s).response = .serverError) := by
  refine ⟨fun hm => ?_, fun hm => ?_, fun hm => ?_, fun r caps hm hA => ?_,
    fun r caps s1 e hm hA hh => ?_⟩
  · rw [dispatch_eq_of_noMatch managementRoutes oracle handlers req s hm]
  · rw [dispatch_eq_of_versionTooOld managementRoutes oracle handlers req s hm]
  · rw [dispatch_eq_of_methodMismatch managementRoutes oracle handlers req s hm]
  · rw [dispatch_eq_of_matched managementRoutes oracle handlers req s r caps hm, hA]
  · rw [dispatch_eq_of_matched managementRoutes oracle handlers req s r caps hm, hA, hh]

/-- C7 witness: a failing `GET /systeminfo` handler is caught as a
structured 5xx, and `PATCH /modules/foo` is a structured 405. -/
theorem dispatch_translates_all_failures_witness :
    (dispatch managementRoutes [] failingHandlers
      ⟨.get, .Version2018_06_28, "/systeminfo", ""⟩ 0).response = .serverError ∧
    (dispatch managementRoutes [] trivialHandlers
      ⟨.patch, .Version2018_06_28, "/modules/foo", ""⟩ 0).response = .methodNotAllowed := by
  refine ⟨?_, ?_⟩
  · exact (dispatch_translates_all_failures [] failingHandlers
      ⟨.get, .Version2018_06_28, "/systeminfo", ""⟩ 0).2.2.2.2
      ⟨.get, .Version2018_06_28, "/systeminfo", .Anonymous, .GetSystemInfo⟩ [] 0 ()
      (by decide) rfl rfl
  · exact (dispatch_translates_all_failures [] trivialHandlers
      ⟨.patch, .Version2018_06_28, "/modules/foo", ""⟩ 0).2.2.1 (by decide)

/-- C8: routing is a function of method, version and path only, and
authorization of resolution only — two requests agreeing on those agree
on both outcomes (bodies may differ); repeating a dispatch with the same
inputs yields the same result. -/
theorem routing_and_auth_deterministic (r1 r2 : Request)
    (hm : r1.method = r2.method) (hv : r1.version = r2.version)
    (hp : r1.path = r2.path) (pol : Policy) (res1 res2 : Resolution)
    (hres : res1 = res2) :
    (matchRoutes managementRoutes r1.method r1.version r1.path =
      matchRoutes managementRoutes r2.method r2.version r2.path) ∧
    authorize pol res1 = authorize pol res2 ∧
    ∀ (σ : Type) (oracle : List Resolution)
      (handlers : Handler → List (String × String) → String → σ → σ × Except Unit Nat)
      (s : σ),
      dispatch managementRoutes oracle handlers r1 s =
        dispatch managementRoutes oracle handlers r1 s := by
  rw [hm, hv, hp, hres]
  exact ⟨rfl, rfl, fun _ _ _ _ => rfl⟩

/-- C8 witness: two `GET /systeminfo` requests differing only in body
route identically. -/
theorem routing_and_auth_deterministic_witness :
    matchRoutes managementRoutes
        (Request.mk .get .Version2018_06_28 "/systeminfo" "a").method
        (Request.mk .get .Version2018_06_28 "/systeminfo" "a").version
        (Request.mk .get .Version2018_06_28 "/systeminfo" "a").path =
      matchRoutes managementRoutes
        (Request.mk .get .Version2018_06_28 "/systeminfo" "b").method
        (Request.mk .get .Version2018_06_28 "/systeminfo" "b").version
        (Request.mk .get .Version2018_06_28 "/systeminfo" "b").path :=
  (routing_and_auth_deterministic
    (Request.mk .get .Version2018_06_28 "/systeminfo" "a")
    (Request.mk .get .Version2018_06_28 "/systeminfo" "b")
    rfl rfl rfl Policy.Anonymous (Except.ok none) (Except.ok none) rfl).1

end Mgmt
